import Mathlib

/-
  Verification of the command-transport and parsing core of
  eos-health-check.py (arista-tac-utilities).

  The Python source is shallowly embedded: JSON values are modelled by the
  inductive `Json` (numeric literals are modelled as integers; the claims
  exercise only integral values), Python `None` by `Option`, and each parser
  is a total Lean function mirroring the source line by line.  Places where
  CPython would raise an uncaught exception are modelled either by an
  `Option`-valued result (`none` = uncaught exception) or, where no claim can
  reach them, by an explicitly commented default.
-/

/-- Model of a decoded JSON document (Python object tree as produced by
`json.loads`).  Object fields keep insertion order, matching Python dicts. -/
inductive Json where
  | null
  | bool (b : Bool)
  | num (n : Int)
  | str (s : String)
  | arr (elems : List Json)
  | obj (fields : List (String × Json))

/-- First binding of a key in a field list; Python `dict` lookup (keys are
unique in decoded JSON, so first binding is the binding). -/
def lookupField : List (String × Json) → String → Option Json
  | [], _ => none
  | (k, v) :: t, key => if k = key then some v else lookupField t key

/-- `d.get(key)` for a dict-shaped value; `none` both for a missing key and
for a non-dict receiver (on a non-dict Python would raise; no claim input
applies `.get` to a non-dict). -/
def Json.get? : Json → String → Option Json
  | Json.obj fields, key => lookupField fields key
  | _, _ => none

/-- `d.get(key, default)`. -/
def Json.getD (j : Json) (key : String) (dflt : Json) : Json :=
  (j.get? key).getD dflt

/-- Python truthiness of a JSON value. -/
def pyTruthy : Json → Bool
  | Json.null => false
  | Json.bool b => b
  | Json.num n => !(n == 0)
  | Json.str s => !(s == "")
  | Json.arr l => !l.isEmpty
  | Json.obj l => !l.isEmpty

/-- Truthiness of an optional value (`None` is falsy). -/
def pyTruthyOpt : Option Json → Bool
  | none => false
  | some j => pyTruthy j

/-- `d.get(key, default)` read as an integer: the integer when the field is
numeric, the default when the field is absent.  A present non-numeric field
would make the Python comparisons raise; the claims only use numeric or
absent counter fields. -/
def getIntD (j : Json) (key : String) (dflt : Int) : Int :=
  match j.get? key with
  | some (Json.num n) => n
  | some _ => dflt
  | none => dflt

/-- Rendering of a JSON value inside a Python f-string (`str(value)`).
Lists/dicts would render via `repr`; no claim prints a list or dict. -/
def pyToStr : Json → String
  | Json.null => "None"
  | Json.bool true => "True"
  | Json.bool false => "False"
  | Json.num n => toString n
  | Json.str s => s
  | Json.arr _ => "[...]"
  | Json.obj _ => "\x7b...\x7d"

/-- Substring test on character lists, the semantics of Python's
`pat in s`: some suffix of `s` starts with `pat`. -/
def listContains (pat : List Char) : List Char → Bool
  | [] => pat.isEmpty
  | c :: t => pat.isPrefixOf (c :: t) || listContains pat t

/-- Python `pat in s` on strings. -/
def strContains (s pat : String) : Bool :=
  listContains pat.data s.data

/-- Python `str.strip()`: drop whitespace from both ends. -/
def pyStrip (s : String) : String :=
  ⟨((s.data.dropWhile Char.isWhitespace).reverse.dropWhile Char.isWhitespace).reverse⟩

/-- Worker for `pySplitlines`: split at `'\n'`, a trailing newline closing
the last line rather than opening an empty one. -/
def splitlinesAux (cur : List Char) : List Char → List String
  | [] => [⟨cur.reverse⟩]
  | c :: t =>
    if c = '\n' then
      match t with
      | [] => [⟨cur.reverse⟩]
      | _ => (⟨cur.reverse⟩ : String) :: splitlinesAux [] t
    else splitlinesAux (c :: cur) t

/-- Python `str.splitlines()` restricted to `\n` separators (the only line
separator occurring in the modelled outputs). -/
def pySplitlines (s : String) : List String :=
  match s.data with
  | [] => []
  | l => splitlinesAux [] l

/-- Worker for `pySplit`: split on whitespace runs, dropping empty tokens. -/
def splitWsAux (cur : List Char) : List Char → List String
  | [] => if cur.isEmpty then [] else [⟨cur.reverse⟩]
  | c :: t =>
    if c.isWhitespace then
      if cur.isEmpty then splitWsAux [] t
      else (⟨cur.reverse⟩ : String) :: splitWsAux [] t
    else splitWsAux (c :: cur) t

/-- Python `str.split()` (no argument). -/
def pySplit (s : String) : List String :=
  splitWsAux [] s.data

/-- Python negative indexing `parts[-k]` for `k ≤ len(parts)`. -/
def partNeg (parts : List String) (k : Nat) : String :=
  (parts.get? (parts.length - k)).getD ""

/-- Python dict insertion `d[k] = v` on an insertion-ordered association
list: overwrite in place if the key exists, else append. -/
def dictInsert {β : Type} (k : String) (v : β) (d : List (String × β)) :
    List (String × β) :=
  if d.any (fun p => p.1 = k) then
    d.map (fun p => if p.1 = k then (k, v) else p)
  else d ++ [(k, v)]

/-- Two-decimal fixed formatting of an exact rational, modelling CPython's
`f"{x:.2f}"` on the exact values reached by the claims (rounding of
half-way binary floats is not modelled; no claim exercises it). -/
def fmt2 (q : ℚ) : String :=
  let scaled : Int := Int.floor (q * 100 + 1 / 2)
  let a := scaled.natAbs
  let sign := if scaled < 0 then "-" else ""
  sign ++ toString (a / 100) ++ "." ++
    (if a % 100 < 10 then "0" else "") ++ toString (a % 100)

/- ANSI color constants of the source's `Colors` class (the tty branch;
the non-tty branch sets all of them to `""`). -/
namespace Colors

def HEADER : String := "\x1b[95m"

def TITLE : String := "\x1b[94m"

def OKGREEN : String := "\x1b[92m"

def WARNING : String := "\x1b[93m"

def FAIL : String := "\x1b[91m"

def RESET : String := "\x1b[0m"

def BOLD : String := "\x1b[1m"

end Colors

/- ############################################################
   parse_system_summary (source lines 196-212)
   ############################################################ -/

/-- Result of `parse_system_summary`: either the `{"error": ...}` dict or the
full summary dict.  The model/serial/version/uptime fields hold the raw JSON
values the source stores; the three memory fields are the formatted strings. -/
inductive SummaryResult where
  | unavailable (msg : String)
  | summary (modelName serial version uptime : Json)
      (mem_total_gb mem_free_gb mem_used_percent : String)

/-- `data.get(key, 0)` as used for `memTotal`/`memFree`: the integer when the
field is numeric, `0` when absent, and `none` (Python raises `TypeError` in
the arithmetic on line 209/210) when present but non-numeric. -/
def getMemKb (d : Json) (key : String) : Option Int :=
  match d.get? key with
  | some (Json.num n) => some n
  | some _ => none
  | none => some 0

/-- `parse_system_summary` (lines 196-212).  The outer `Option` is the fault
channel: `none` marks an uncaught Python exception (non-numeric memory
field); every claim input stays in `some`. -/
def parse_system_summary (data : Option Json) : Option SummaryResult :=
  match data with
  | none => some (SummaryResult.unavailable "Could not retrieve version information.")
  | some d =>
    if pyTruthy d = false then
      some (SummaryResult.unavailable "Could not retrieve version information.")
    else
      match getMemKb d "memTotal", getMemKb d "memFree" with
      | some mt, some mf =>
        some (SummaryResult.summary
          (d.getD "modelName" (Json.str "N/A"))
          (d.getD "serialNumber" (Json.str "N/A"))
          (d.getD "version" (Json.str "N/A"))
          (d.getD "uptime" (Json.num 0))
          (fmt2 ((mt : ℚ) / 1024 / 1024))
          (fmt2 ((mf : ℚ) / 1024 / 1024))
          (if mt > 0 then fmt2 ((1 - (mf : ℚ) / (mt : ℚ)) * 100) else "0.00"))
      | _, _ => none

/- ############################################################
   parse_system_errors (source lines 262-300)
   ############################################################ -/

/-- The four-field dict built by `parse_system_errors`. -/
structure SystemErrors where
  core_dumps : String
  agent_crashes : String
  syslog_criticals : List String
  pci_errors : String

/-- Core-dump branch (lines 271-272): found only when the listing is truthy,
does not contain the substring `"total 0"`, and has more than one line. -/
def core_dump_msg (core_output : Option String) : String :=
  match core_output with
  | some s =>
    if s ≠ "" ∧ strContains s "total 0" = false ∧ 1 < (pySplitlines s).length then
      "Core files found:\n" ++ s
    else "No core files found."
  | none => "No core files found."

/-- Agent-crash branch (lines 275-277): report the number of non-blank lines
whenever the output is non-blank after trimming. -/
def agent_crash_msg (agent_output : Option String) : String :=
  match agent_output with
  | some s =>
    if s ≠ "" ∧ pyStrip s ≠ "" then
      "Found " ++
        toString ((pySplitlines (pyStrip s)).filter (fun l => pyStrip l ≠ "")).length ++
        " agent crash report(s)."
    else "No agent crashes found."
  | none => "No agent crashes found."

/-- Syslog branch (lines 279-280): the trimmed output's lines, verbatim. -/
def syslog_lines (syslog_output : Option String) : List String :=
  match syslog_output with
  | some s => if s ≠ "" then pySplitlines (pyStrip s) else []
  | none => []

/-- One line of the PCI report (lines 285-296), when the device has any
error counter greater than zero. -/
def pci_line (pci_id : String) (details : Json) : Option String :=
  let corr := getIntD details "correctableErrors" 0
  let nonFatal := getIntD details "nonFatalErrors" 0
  let fatal := getIntD details "fatalErrors" 0
  if corr > 0 ∨ nonFatal > 0 ∨ fatal > 0 then
    some ("Device " ++ pyToStr (details.getD "name" (Json.str pci_id)) ++
      ": Correctable=" ++ toString corr ++ ", NonFatal=" ++ toString nonFatal ++
      ", Fatal=" ++ toString fatal)
  else none

/-- PCI branch (lines 283-298).  `pci_output['pciIds'].items()` requires a
dict value; a truthy non-dict would raise in Python and is unreached. -/
def pci_msg (pci_output : Option Json) : String :=
  let entries : List (String × Json) :=
    match pci_output with
    | some j =>
      match j.get? "pciIds" with
      | some (Json.obj l) => l
      | _ => []
    | none => []
  let lines := entries.filterMap (fun p => pci_line p.1 p.2)
  if lines.isEmpty then "No PCI errors found." else String.intercalate "\n" lines

/-- `parse_system_errors` (lines 262-300). -/
def parse_system_errors (core_output agent_output syslog_output : Option String)
    (pci_output : Option Json) : SystemErrors :=
  { core_dumps := core_dump_msg core_output
  , agent_crashes := agent_crash_msg agent_output
  , syslog_criticals := syslog_lines syslog_output
  , pci_errors := pci_msg pci_output }

/- ############################################################
   parse_feature_health (source lines 302-352)
   ############################################################ -/

/-- The three-field dict built by `parse_feature_health`. -/
structure FeatureHealth where
  bgp : String
  mlag : String
  vxlan : String

/-- One entry of `peers_down` (lines 324-330): `none` when the peer state is
`'Established'`, otherwise the rendered line, with transient states colored
`WARNING` and everything else `FAIL`, and falsy states shown as `'Unknown'`. -/
def peer_down_line (peer : String) (details : Json) : Option String :=
  match details.get? "peerState" with
  | some (Json.str s) =>
    if s = "Established" then none
    else
      some ("Peer " ++ peer ++ " is in state " ++
        (if s ∈ ["Active", "Connect", "OpenSent", "OpenConfirm"] then
          Colors.WARNING else Colors.FAIL) ++
        (if s = "" then "Unknown" else s) ++ Colors.RESET)
  | some v =>
    -- a non-string state is never equal to 'Established' nor to a transient
    -- state string, and `peer_state or 'Unknown'` falls back on falsy values
    some ("Peer " ++ peer ++ " is in state " ++ Colors.FAIL ++
      (if pyTruthy v then pyToStr v else "Unknown") ++ Colors.RESET)
  | none =>
    some ("Peer " ++ peer ++ " is in state " ++ Colors.FAIL ++ "Unknown" ++
      Colors.RESET)

/-- The `else` branch over the peers dict (lines 322-336). -/
def bgp_peers_status (pl : List (String × Json)) : String :=
  let downs := pl.filterMap (fun pd => peer_down_line pd.1 pd.2)
  let total := pl.length
  let up := total - downs.length
  let summaryColor := if up = total then Colors.OKGREEN else Colors.FAIL
  let base := summaryColor ++ toString up ++ "/" ++ toString total ++
    " peers established." ++ Colors.RESET
  if downs.isEmpty then base else base ++ "\n  " ++ String.intercalate "\n  " downs

/-- `"Missing Router ID" in vrf_default.get('reason', '')` (line 316); a
present non-string reason would raise `TypeError` in Python and is unreached
by the claims. -/
def reasonHasMissing (vd : Json) : Bool :=
  match vd.get? "reason" with
  | some (Json.str r) => strContains r "Missing Router ID"
  | some _ => false
  | none => false

/-- The fields of a truthy `peers` value (line 324); a truthy non-dict would
raise `AttributeError` on `.items()` in Python and is unreached. -/
def jsonFields : Json → List (String × Json)
  | Json.obj l => l
  | _ => []

/-- Branches over a truthy default VRF (lines 316-336). -/
def bgp_vrf_status (vd : Json) : String :=
  if reasonHasMissing vd then
    Colors.FAIL ++ "BGP is disabled (Missing Router ID)" ++ Colors.RESET
  else if pyTruthyOpt (vd.get? "peers") = false then
    Colors.WARNING ++ "BGP is enabled (Router ID: " ++
      pyToStr (vd.getD "routerId" (Json.str "N/A")) ++
      ") but has no configured neighbors." ++ Colors.RESET
  else
    bgp_peers_status (jsonFields (vd.getD "peers" (Json.obj [])))

/-- BGP half of `parse_feature_health` (lines 304-336).  A truthy non-dict
`bgp_data` would raise on `bgp_data['vrfs']` in Python; the claims only pass
dicts or `None`. -/
def bgp_status (bgp_data : Option Json) : String :=
  match bgp_data with
  | some (Json.obj bf) =>
    match lookupField bf "vrfs" with
    | some vj =>
      match vj.get? "default" with
      | some vd =>
        if pyTruthy vd then bgp_vrf_status vd
        else "BGP not configured or no summary available."
      | none => "BGP not configured or no summary available."
    | none => "BGP not configured or no summary available."
  | _ => "BGP not configured or no summary available."

/-- `mlag_data.get('state') != 'disabled'` (line 339): a missing or
non-string state is never equal to the string `'disabled'`. -/
def mlagStateNotDisabled (j : Json) : Bool :=
  match j.get? "state" with
  | some (Json.str s) => s != "disabled"
  | some _ => true
  | none => true

/-- MLAG half of `parse_feature_health` (lines 339-346). -/
def mlag_status (mlag_data : Option Json) : String :=
  match mlag_data with
  | some j =>
    if pyTruthy j = true ∧ mlagStateNotDisabled j = true then
      let stateJ := j.getD "state" (Json.str "N/A")
      let isActive : Bool := match stateJ with
        | Json.str s => s == "active"
        | _ => false
      "State: " ++ (if isActive then Colors.OKGREEN else Colors.FAIL) ++
        pyToStr stateJ ++ Colors.RESET ++ ", " ++
        "Negotiation Status: " ++ pyToStr (j.getD "negStatus" (Json.str "N/A")) ++ ", " ++
        "Peer Link: " ++ pyToStr (j.getD "peerLink" (Json.str "N/A")) ++ ", " ++
        "Local Interface: " ++ pyToStr (j.getD "localInterface" (Json.str "N/A"))
    else "MLAG not configured."
  | none => "MLAG not configured."

/-- VXLAN half of `parse_feature_health` (lines 349-350); `len` is defined on
the dict/list/string shapes, anything else would raise in Python. -/
def vxlan_status (vxlan_data : Option Json) : String :=
  match vxlan_data with
  | some j =>
    match j.get? "vnis" with
    | some (Json.obj l) => "Found " ++ toString l.length ++ " VNI(s)."
    | some (Json.arr l) => "Found " ++ toString l.length ++ " VNI(s)."
    | some (Json.str s) => "Found " ++ toString s.length ++ " VNI(s)."
    | _ => "No VXLAN VNI information found."
  | none => "No VXLAN VNI information found."

/-- `parse_feature_health` (lines 302-352). -/
def parse_feature_health (bgp_data mlag_data vxlan_data : Option Json) :
    FeatureHealth :=
  { bgp := bgp_status bgp_data
  , mlag := mlag_status mlag_data
  , vxlan := vxlan_status vxlan_data }

/- ############################################################
   parse_interface_health (source lines 354-369)
   ############################################################ -/

/-- The three-field dict built by `parse_interface_health`. -/
structure InterfaceHealth where
  errors : List String
  discards : List String
  link_flaps : List String

/-- Error line per interface (lines 360-361); the source indexes
`counters['inErrors']` directly in the f-string, which matches `getIntD`
whenever the keys that made the condition true are present and numeric. -/
def iface_error_line (iface : String) (counters : Json) : Option String :=
  if getIntD counters "inErrors" 0 > 0 ∨ getIntD counters "outErrors" 0 > 0 then
    some (iface ++ ": In=" ++ toString (getIntD counters "inErrors" 0) ++
      ", Out=" ++ toString (getIntD counters "outErrors" 0))
  else none

/-- Flap line per interface (lines 362-363): reported only when
`linkStatusChanges` strictly exceeds the hard-coded threshold 10. -/
def flap_line (iface : String) (counters : Json) : Option String :=
  if getIntD counters "linkStatusChanges" 0 > 10 then
    some (iface ++ ": " ++ toString (getIntD counters "linkStatusChanges" 0) ++
      " flaps")
  else none

/-- Discard line per interface (lines 365-367). -/
def discard_line (iface : String) (counters : Json) : Option String :=
  if getIntD counters "inDiscards" 0 > 0 ∨ getIntD counters "outDiscards" 0 > 0 then
    some (iface ++ ": In=" ++ toString (getIntD counters "inDiscards" 0) ++
      ", Out=" ++ toString (getIntD counters "outDiscards" 0))
  else none

/-- `data['<key>'].items()` guarded by `data and '<key>' in data`
(lines 358-359, 364-365); a truthy non-dict would raise in Python. -/
def countersOf (data : Option Json) (key : String) : List (String × Json) :=
  match data with
  | some j =>
    match j.get? key with
    | some (Json.obj l) => l
    | _ => []
  | none => []

/-- `parse_interface_health` (lines 354-369). -/
def parse_interface_health (err_data disc_data : Option Json) : InterfaceHealth :=
  let errPairs := countersOf err_data "interfaceErrorCounters"
  let discPairs := countersOf disc_data "interfaceDiscardCounters"
  { errors := errPairs.filterMap (fun p => iface_error_line p.1 p.2)
  , discards := discPairs.filterMap (fun p => discard_line p.1 p.2)
  , link_flaps := errPairs.filterMap (fun p => flap_line p.1 p.2) }

/- ############################################################
   parse_filesystem_usage (source lines 240-260)
   ############################################################ -/

/-- One row of the filesystem table (the source's inner dict literal,
lines 256-259); `usePct` models the `"use%"` key. -/
structure FsEntry where
  fs_device : String
  size : String
  used : String
  avail : String
  usePct : String
deriving DecidableEq

/-- Result of `parse_filesystem_usage`: the `{"error": ...}` dict or the
mount-point table, in insertion order. -/
inductive FsResult where
  | unavailable (msg : String)
  | table (rows : List (String × FsEntry))
deriving DecidableEq

/-- The fixed mount allow-list (line 245). -/
def desired_mounts : List String := ["/mnt/flash", "/var/log", "/var/core"]

/-- Processing of one table row (lines 248-259): skip blank rows, accept a
row only when its trailing token is an allowed mount point and it has at
least five columns, rebuilding the device name from the leading columns. -/
def fs_row_step (acc : List (String × FsEntry)) (line : String) :
    List (String × FsEntry) :=
  let parts := pySplit line
  match parts.getLast? with
  | none => acc
  | some mount_point =>
    if mount_point ∈ desired_mounts ∧ 5 ≤ parts.length then
      dictInsert mount_point
        { fs_device := String.intercalate " " (parts.take (parts.length - 5))
        , size := partNeg parts 5
        , used := partNeg parts 4
        , avail := partNeg parts 3
        , usePct := partNeg parts 2 } acc
    else acc

/-- `parse_filesystem_usage` (lines 240-260). -/
def parse_filesystem_usage (output : Option String) : FsResult :=
  match output with
  | none => FsResult.unavailable "Could not retrieve filesystem usage."
  | some s =>
    if s = "" then FsResult.unavailable "Could not retrieve filesystem usage."
    else FsResult.table (((pySplitlines (pyStrip s)).drop 1).foldl fs_row_step [])

/- ############################################################
   color_by_threshold (source lines 410-420)
   ############################################################ -/

/-- `re.sub(r'[^0-9.]', '', value_str)`: keep only digits and dots. -/
def stripNonNumeric (s : String) : String :=
  ⟨s.data.filter (fun c => c.isDigit || c == '.')⟩

/-- Value of a non-empty all-digit character list. -/
def digitsToNat? (l : List Char) : Option Nat :=
  if l.isEmpty ∨ ¬ l.all Char.isDigit then none
  else some (l.foldl (fun acc c => acc * 10 + (c.toNat - 48)) 0)

/-- `s.splitOn "."` for the single-character separator `'.'`. -/
def splitDotAux (cur : List Char) : List Char → List String
  | [] => [⟨cur.reverse⟩]
  | c :: t =>
    if c = '.' then (⟨cur.reverse⟩ : String) :: splitDotAux [] t
    else splitDotAux (c :: cur) t

/-- Python `float(...)` on the digits-and-dots strings produced by
`stripNonNumeric`: `none` exactly when Python raises `ValueError`
(empty string, lone dot, or more than one dot). -/
def parseDecimal? (s : String) : Option ℚ :=
  match splitDotAux [] s.data with
  | [w] => (digitsToNat? w.data).map (fun n => (n : ℚ))
  | [w, f] =>
    if w = "" ∧ f = "" then none
    else
      match (if w = "" then some 0 else digitsToNat? w.data),
            (if f = "" then some 0 else digitsToNat? f.data) with
      | some nw, some nf => some ((nw : ℚ) + (nf : ℚ) / ((10 : ℚ) ^ f.length))
      | _, _ => none
  | _ => none

/-- The severity the color encodes: `FAIL` = critical, `WARNING` = warning,
`OKGREEN` = ok. -/
inductive Severity where
  | ok
  | warning
  | critical
deriving DecidableEq

/-- The numeric decision inside `color_by_threshold` (lines 414-418). -/
def classify (x warn crit : ℚ) : Severity :=
  if x ≥ crit then Severity.critical
  else if x ≥ warn then Severity.warning
  else Severity.ok

/-- Color wrapper per severity tier. -/
def severityColor : Severity → String
  | Severity.critical => Colors.FAIL
  | Severity.warning => Colors.WARNING
  | Severity.ok => Colors.OKGREEN

/-- `color_by_threshold` (lines 410-420): strip non-numeric characters,
parse, and wrap in the tier's color; parse failure returns the string
unchanged. -/
def color_by_threshold (value_str : String) (warn crit : ℚ) : String :=
  match parseDecimal? (stripNonNumeric value_str) with
  | none => value_str
  | some x =>
    if x ≥ crit then Colors.FAIL ++ value_str ++ Colors.RESET
    else if x ≥ warn then Colors.WARNING ++ value_str ++ Colors.RESET
    else Colors.OKGREEN ++ value_str ++ Colors.RESET

/- ############################################################
   CommandExecutor.run_command (source lines 153-189)
   and the remote hostname lookup (lines 100-135)
   ############################################################ -/

/-- The executed command string (lines 155-159): `use_json` is forced off
when the text already contains `"| json"`, and the f-string appends a space
plus the modifier (or a space plus nothing). -/
def full_command (command : String) (use_json : Bool) : String :=
  let uj := if strContains command "| json" then false else use_json
  command ++ " " ++ (if uj then "| json" else "")

/-- Observable outcome of `run_command`: `ok`/`okText` are the returned
payload (decoded tree / raw text), `failed` is the caught-exception path
returning `None`, `fault` is an uncaught Python exception. -/
inductive ExecResult where
  | ok (payload : Json)
  | okText (t : String)
  | failed
  | fault

/-- The eAPI branch of `run_command` (lines 168-176) together with the
uniform return/except logic (lines 185-189), as a function of the decoded
response envelope.  An envelope-level `error` raises `ValueError` (caught →
`failed`) when the error object has a `message`; building that `ValueError`
raises an uncaught exception otherwise.  Without `error`, `result[0]` is
returned (decoded for `use_json`, its `output` text otherwise); missing
pieces raise uncaught `KeyError`/`TypeError`/`IndexError` (→ `fault`). -/
def run_command_eapi (envelope : Json) (use_json : Bool) : ExecResult :=
  match envelope with
  | Json.obj fields =>
    match lookupField fields "error" with
    | some (Json.obj ef) =>
      if (lookupField ef "message").isSome then ExecResult.failed
      else ExecResult.fault
    | some _ => ExecResult.fault
    | none =>
      match lookupField fields "result" with
      | some (Json.arr (x :: _)) =>
        if use_json then ExecResult.ok x
        else
          match x.get? "output" with
          | some (Json.str t) => ExecResult.okText t
          | some v => ExecResult.ok v
          | none => ExecResult.fault
      | some _ => ExecResult.fault
      | none => ExecResult.fault
  | _ => ExecResult.fault

/-- Hostname assignment after a successful eAPI probe (lines 120-121):
`data = self.run_command('show hostname'); self.hostname =
data.get('hostname', host)`.  `none` marks the uncaught `AttributeError`
Python raises when the lookup failed (`data is None`) or decoded to a
non-dict. -/
def resolve_hostname_eapi (host : String) (lookup : Option Json) : Option Json :=
  match lookup with
  | some (Json.obj f) => some ((Json.obj f).getD "hostname" (Json.str host))
  | _ => none

/-- Hostname assignment on the SSH fallback path (lines 127-131): the
lookup result is guarded by `if data:` before `.get` is called, so a failed
lookup falls back to the literal host string.  `none` marks the uncaught
`AttributeError` on a truthy non-dict decode. -/
def resolve_hostname_ssh (host : String) (lookup : Option Json) : Option Json :=
  match lookup with
  | none => some (Json.str host)
  | some d =>
    if pyTruthy d then
      match d with
      | Json.obj f => some ((Json.obj f).getD "hostname" (Json.str host))
      | _ => none
    else some (Json.str host)

/- ############################################################
   Occurrence counting for the structured-output modifier
   ############################################################ -/

/-- The character list of the structured-output modifier `"| json"`. -/
def pjson : List Char := ['|', ' ', 'j', 's', 'o', 'n']

/-- Number of positions of `s` at which `pat` occurs (occurrences of a
non-empty pattern as a substring). -/
def countOcc (pat : List Char) : List Char → Nat
  | [] => 0
  | c :: t => (if pat.isPrefixOf (c :: t) then 1 else 0) + countOcc pat t

/-- Occurrences of `"| json"` in a string. -/
def jsonOcc (s : String) : Nat := countOcc pjson s.data

/- ############################################################
   Theorems
   ############################################################ -/

/-- Discriminator: did `run_command` return a payload (decoded tree or raw
text) rather than `None`/an exception? -/
def ExecResult.isOk : ExecResult → Bool
  | ExecResult.ok _ => true
  | ExecResult.okText _ => true
  | ExecResult.failed => false
  | ExecResult.fault => false

/-- C1 counterexample: an eAPI response whose envelope-level `error` carries
structured per-command detail in `data[0]` (the "BGP not running" shape the
claim cites) is surfaced as `Failed` (`run_command` returns `None`); the
`data[0]` detail is not returned as the command's payload. -/
theorem c1_counterexample :
    run_command_eapi
      (Json.obj
        [("jsonrpc", Json.str "2.0"),
         ("id", Json.str "gemini-health-check"),
         ("error", Json.obj
           [("code", Json.num (-1003)),
            ("message", Json.str "CLI command 1 of 1 'show ip bgp summary' failed"),
            ("data", Json.arr
              [Json.obj [("errors", Json.arr [Json.str "BGP is not running"])]])])])
      true = ExecResult.failed
    ∧ (run_command_eapi
      (Json.obj
        [("jsonrpc", Json.str "2.0"),
         ("id", Json.str "gemini-health-check"),
         ("error", Json.obj
           [("code", Json.num (-1003)),
            ("message", Json.str "CLI command 1 of 1 'show ip bgp summary' failed"),
            ("data", Json.arr
              [Json.obj [("errors", Json.arr [Json.str "BGP is not running"])]])])])
      true).isOk = false :=
  ⟨rfl, rfl⟩

/-- C1 (amended): every response envelope whose `error` object carries a
`message` is surfaced as `Failed` — `run_command` raises `ValueError` and the
handler returns `None` — regardless of any structured `data[0]` detail; no
error detail is ever returned as the command's payload. -/
theorem c1_theorem (fields ef : List (String × Json)) (use_json : Bool)
    (he : lookupField fields "error" = some (Json.obj ef))
    (hm : (lookupField ef "message").isSome = true) :
    run_command_eapi (Json.obj fields) use_json = ExecResult.failed := by
  simp [run_command_eapi, he, hm]

/-- C1 witness: the amended theorem applied to the counterexample envelope. -/
theorem c1_witness :
    lookupField
        [("jsonrpc", Json.str "2.0"),
         ("id", Json.str "gemini-health-check"),
         ("error", Json.obj
           [("code", Json.num (-1003)),
            ("message", Json.str "CLI command 1 of 1 'show ip bgp summary' failed"),
            ("data", Json.arr
              [Json.obj [("errors", Json.arr [Json.str "BGP is not running"])]])])]
        "error" = some (Json.obj
           [("code", Json.num (-1003)),
            ("message", Json.str "CLI command 1 of 1 'show ip bgp summary' failed"),
            ("data", Json.arr
              [Json.obj [("errors", Json.arr [Json.str "BGP is not running"])]])])
    ∧ run_command_eapi
        (Json.obj
          [("jsonrpc", Json.str "2.0"),
           ("id", Json.str "gemini-health-check"),
           ("error", Json.obj
             [("code", Json.num (-1003)),
              ("message", Json.str "CLI command 1 of 1 'show ip bgp summary' failed"),
              ("data", Json.arr
                [Json.obj [("errors", Json.arr [Json.str "BGP is not running"])]])])])
        false = ExecResult.failed :=
  ⟨rfl, c1_theorem _ _ false rfl rfl⟩

/-- C2: each of the system-summary, system-errors, and feature-health parsers
maps a `Failed` (`None`) required input to its explicit "unavailable"/default
record; in this embedding the parsers are total functions, so no runtime
fault is possible on these inputs. -/
theorem c2_theorem :
    parse_system_summary none =
      some (SummaryResult.unavailable "Could not retrieve version information.")
    ∧ parse_system_errors none none none none =
      { core_dumps := "No core files found."
      , agent_crashes := "No agent crashes found."
      , syslog_criticals := []
      , pci_errors := "No PCI errors found." }
    ∧ parse_feature_health none none none =
      { bgp := "BGP not configured or no summary available."
      , mlag := "MLAG not configured."
      , vxlan := "No VXLAN VNI information found." } :=
  ⟨rfl, rfl, rfl⟩

/-- C5: evaluation at the failing input.  On the eAPI path a failed hostname
lookup (`run_command` returning `None`) does not fall back to the literal
host string — line 121 calls `.get` on `None`, an uncaught `AttributeError`
(modelled as `none`); the SSH path guards the same lookup and does fall back,
and a successful eAPI lookup resolves normally. -/
theorem c5_theorem :
    resolve_hostname_eapi "10.0.0.1" none = none
    ∧ resolve_hostname_ssh "10.0.0.1" none = some (Json.str "10.0.0.1")
    ∧ resolve_hostname_eapi "10.0.0.1"
        (some (Json.obj [("hostname", Json.str "switch-1")])) =
      some (Json.str "switch-1") :=
  ⟨rfl, rfl, rfl⟩

/-- C10: whenever the reported total memory is zero or absent (and the free
memory field is numeric or absent), `parse_system_summary` does not divide:
it returns a full summary record whose memory-used-percent field is the fixed
string `"0.00"`, and no fault occurs. -/
theorem c10_theorem (d : Json) (ht : pyTruthy d = true)
    (hmt : getMemKb d "memTotal" = some 0)
    (hmf : (getMemKb d "memFree").isSome = true) :
    ∃ a b c u g h', parse_system_summary (some d) =
      some (SummaryResult.summary a b c u g h' "0.00") := by
  obtain ⟨mf, hmf'⟩ := Option.isSome_iff_exists.mp hmf
  have heq : parse_system_summary (some d) =
      some (SummaryResult.summary
        (d.getD "modelName" (Json.str "N/A"))
        (d.getD "serialNumber" (Json.str "N/A"))
        (d.getD "version" (Json.str "N/A"))
        (d.getD "uptime" (Json.num 0))
        (fmt2 ((0 : ℚ) / 1024 / 1024))
        (fmt2 ((mf : ℚ) / 1024 / 1024))
        "0.00") := by
    simp only [parse_system_summary, ht, hmt, hmf']
    norm_num
  exact ⟨_, _, _, _, _, _, heq⟩

/-- C10 witness: a record with `memTotal` absent and numeric `memFree`. -/
theorem c10_witness :
    pyTruthy (Json.obj [("modelName", Json.str "cEOS"), ("memFree", Json.num 4096)]) = true
    ∧ getMemKb (Json.obj [("modelName", Json.str "cEOS"), ("memFree", Json.num 4096)]) "memTotal" = some 0
    ∧ (getMemKb (Json.obj [("modelName", Json.str "cEOS"), ("memFree", Json.num 4096)]) "memFree").isSome = true
    ∧ ∃ a b c u g h', parse_system_summary
        (some (Json.obj [("modelName", Json.str "cEOS"), ("memFree", Json.num 4096)])) =
      some (SummaryResult.summary a b c u g h' "0.00") :=
  ⟨rfl, rfl, rfl, c10_theorem _ rfl rfl rfl⟩

/-- C4: with `warn < crit`, the classification behind `color_by_threshold`
is `Critical` iff `x ≥ crit`, `Warning` iff `warn ≤ x < crit`, and `Ok`
otherwise — boundary values classify at the higher tier — and
`color_by_threshold` wraps the value string in exactly the color of that
classification whenever the stripped string parses. -/
theorem c4_theorem (x warn crit : ℚ) (h : warn < crit) :
    (classify x warn crit = Severity.critical ↔ crit ≤ x)
    ∧ (classify x warn crit = Severity.warning ↔ warn ≤ x ∧ x < crit)
    ∧ (classify x warn crit = Severity.ok ↔ x < warn)
    ∧ (∀ v y, parseDecimal? (stripNonNumeric v) = some y →
        color_by_threshold v warn crit =
          severityColor (classify y warn crit) ++ v ++ Colors.RESET) := by
  refine ⟨?_, ?_, ?_, ?_⟩
  · unfold classify
    split_ifs with h1 h2 <;> simp_all <;> linarith
  · unfold classify
    split_ifs with h1 h2 <;> simp_all <;> linarith
  · unfold classify
    split_ifs with h1 h2 <;> simp_all <;> linarith
  · intro v y hv
    unfold color_by_threshold
    rw [hv]
    show (if y ≥ crit then Colors.FAIL ++ v ++ Colors.RESET
      else if y ≥ warn then Colors.WARNING ++ v ++ Colors.RESET
      else Colors.OKGREEN ++ v ++ Colors.RESET) =
      severityColor (classify y warn crit) ++ v ++ Colors.RESET
    unfold classify severityColor
    split_ifs <;> rfl

/-- C4 witness: thresholds 75/90 as used for memory, CPU, and filesystem
percentages; boundaries 90 and 75 classify at the higher tier, and the
percentage string `"90%"` is wrapped in the critical color. -/
theorem c4_witness :
    (75 : ℚ) < 90
    ∧ classify 90 75 90 = Severity.critical
    ∧ classify 75 75 90 = Severity.warning
    ∧ classify 74 75 90 = Severity.ok
    ∧ color_by_threshold "90%" 75 90 = Colors.FAIL ++ "90%" ++ Colors.RESET := by
  refine ⟨by norm_num, ?_, ?_, ?_, ?_⟩
  · exact (c4_theorem 90 75 90 (by norm_num)).1.mpr (by norm_num)
  · exact (c4_theorem 75 75 90 (by norm_num)).2.1.mpr (by norm_num)
  · exact (c4_theorem 74 75 90 (by norm_num)).2.2.1.mpr (by norm_num)
  · have hc := (c4_theorem 90 75 90 (by norm_num)).2.2.2 "90%" 90 (by decide)
    rw [hc]
    norm_num [classify, severityColor]

/-- C6 counterexample: a listing that is exactly the line `"total 0"` plus
one additional entry line is still reported as "No core files found.",
because line 271 also requires the substring `"total 0"` to be absent; the
claim predicts "found" here. -/
theorem c6_counterexample :
    (parse_system_errors (some "total 0\n-rw-rw-r-- 1 root root 0 core.1234")
        none none none).core_dumps = "No core files found."
    ∧ (pySplitlines "total 0\n-rw-rw-r-- 1 root root 0 core.1234").length = 2 :=
  ⟨rfl, rfl⟩

/-- C6 (amended): the single line `"total 0"` yields "not found"; a listing
counts as found only when it is non-empty, has more than one line, and does
not contain the substring `"total 0"` anywhere — so `"total 0"` plus an
additional entry line is still "not found". -/
theorem c6_theorem :
    (parse_system_errors (some "total 0") none none none).core_dumps =
      "No core files found."
    ∧ (∀ s, strContains s "total 0" = true →
        core_dump_msg (some s) = "No core files found.")
    ∧ (∀ s, (pySplitlines s).length ≤ 1 →
        core_dump_msg (some s) = "No core files found.")
    ∧ (∀ s, strContains s "total 0" = false → 1 < (pySplitlines s).length →
        core_dump_msg (some s) = "Core files found:\n" ++ s)
    ∧ core_dump_msg none = "No core files found." := by
  refine ⟨rfl, ?_, ?_, ?_, rfl⟩
  · intro s h
    simp only [core_dump_msg]
    rw [if_neg]
    rintro ⟨-, h2, -⟩
    rw [h] at h2
    cases h2
  · intro s h
    simp only [core_dump_msg]
    rw [if_neg]
    rintro ⟨-, -, h3⟩
    omega
  · intro s h1 h2
    have hne : s ≠ "" := by
      intro he
      subst he
      simp [pySplitlines] at h2
    simp only [core_dump_msg]
    rw [if_pos ⟨hne, h1, h2⟩]

/-- C6 witness: the amended theorem applied to a listing containing
`"total 0"` (not found) and to a two-line listing without it (found). -/
theorem c6_witness :
    strContains "total 0\ncore.1" "total 0" = true
    ∧ core_dump_msg (some "total 0\ncore.1") = "No core files found."
    ∧ strContains "total 4\n-rw- core.1" "total 0" = false
    ∧ 1 < (pySplitlines "total 4\n-rw- core.1").length
    ∧ core_dump_msg (some "total 4\n-rw- core.1") =
        "Core files found:\n" ++ "total 4\n-rw- core.1" :=
  ⟨by decide, c6_theorem.2.1 _ (by decide), by decide, by decide,
   c6_theorem.2.2.2.1 _ (by decide) (by decide)⟩

/-- C9: the claims' sample row is retained under `/mnt/flash` with the five
trailing columns and the device rebuilt from the leading ones, and a row is
processed only under the stated acceptance conditions: dropped when its
trailing token is outside the allow-list or when it has fewer than five
columns, otherwise inserted with the last five columns as
size/used/avail/use% and the remaining leading columns joined as the
device. -/
theorem c9_theorem :
    parse_filesystem_usage
        (some "Filesystem Size Used Avail Use% Mounted on\noverlay 100M 10M 90M 10% /mnt/flash")
      = FsResult.table [("/mnt/flash",
        { fs_device := "overlay", size := "100M", used := "10M"
        , avail := "90M", usePct := "10%" })]
    ∧ (∀ acc line mp, (pySplit line).getLast? = some mp → mp ∉ desired_mounts →
        fs_row_step acc line = acc)
    ∧ (∀ acc line mp, (pySplit line).getLast? = some mp → mp ∈ desired_mounts →
        (pySplit line).length < 5 → fs_row_step acc line = acc)
    ∧ (∀ acc line mp, (pySplit line).getLast? = some mp → mp ∈ desired_mounts →
        5 ≤ (pySplit line).length →
        fs_row_step acc line = dictInsert mp
          { fs_device := String.intercalate " " ((pySplit line).take ((pySplit line).length - 5))
          , size := partNeg (pySplit line) 5
          , used := partNeg (pySplit line) 4
          , avail := partNeg (pySplit line) 3
          , usePct := partNeg (pySplit line) 2 } acc) := by
  refine ⟨by decide, ?_, ?_, ?_⟩
  · intro acc line mp h hnot
    simp only [fs_row_step, h]
    rw [if_neg]
    rintro ⟨hmem, -⟩
    exact hnot hmem
  · intro acc line mp h hmem hlen
    simp only [fs_row_step, h]
    rw [if_neg]
    rintro ⟨-, hge⟩
    omega
  · intro acc line mp h hmem hlen
    simp only [fs_row_step, h]
    rw [if_pos ⟨hmem, hlen⟩]

/-- C9 witness: a row mounted outside the allow-list is dropped; a short
allow-listed row is dropped; the sample row is inserted. -/
theorem c9_witness :
    (pySplit "udev 4.0M 0 4.0M 0% /dev").getLast? = some "/dev"
    ∧ "/dev" ∉ desired_mounts
    ∧ fs_row_step [] "udev 4.0M 0 4.0M 0% /dev" = []
    ∧ (pySplit "tmpfs 100M /mnt/flash").getLast? = some "/mnt/flash"
    ∧ (pySplit "tmpfs 100M /mnt/flash").length < 5
    ∧ fs_row_step [] "tmpfs 100M /mnt/flash" = []
    ∧ fs_row_step [] "overlay 100M 10M 90M 10% /mnt/flash" =
        dictInsert "/mnt/flash"
          { fs_device := String.intercalate " "
              ((pySplit "overlay 100M 10M 90M 10% /mnt/flash").take
                ((pySplit "overlay 100M 10M 90M 10% /mnt/flash").length - 5))
          , size := partNeg (pySplit "overlay 100M 10M 90M 10% /mnt/flash") 5
          , used := partNeg (pySplit "overlay 100M 10M 90M 10% /mnt/flash") 4
          , avail := partNeg (pySplit "overlay 100M 10M 90M 10% /mnt/flash") 3
          , usePct := partNeg (pySplit "overlay 100M 10M 90M 10% /mnt/flash") 2 } [] :=
  ⟨by decide, by decide,
   c9_theorem.2.1 [] "udev 4.0M 0 4.0M 0% /dev" "/dev" (by decide) (by decide),
   by decide, by decide,
   c9_theorem.2.2.1 [] "tmpfs 100M /mnt/flash" "/mnt/flash" (by decide) (by decide)
     (by decide),
   c9_theorem.2.2.2 [] "overlay 100M 10M 90M 10% /mnt/flash" "/mnt/flash" (by decide)
     (by decide) (by decide)⟩

/-- C7 counterexample: with three occurrences of `"Interface Ethernet1,"` in
the log and a link-change count of 3 for Ethernet1, nothing is reported as
flapping (the code's only flap report requires the structured
`linkStatusChanges` counter to exceed 10), and the syslog lines are carried
verbatim — no entity is tallied or reported with count 3, contrary to the
claimed threshold-2 tally. -/
theorem c7_counterexample :
    (parse_interface_health
      (some (Json.obj [("interfaceErrorCounters", Json.obj
        [("Ethernet1", Json.obj
          [("inErrors", Json.num 0), ("outErrors", Json.num 0),
           ("linkStatusChanges", Json.num 3)])])])) none).link_flaps = []
    ∧ (parse_system_errors none none
        (some ("Ebra: Interface Ethernet1, changed state to down\nEbra: Interface Ethernet1, changed state to up\nEbra: Interface Ethernet1, changed state to down"))
        none).syslog_criticals =
      ["Ebra: Interface Ethernet1, changed state to down",
       "Ebra: Interface Ethernet1, changed state to up",
       "Ebra: Interface Ethernet1, changed state to down"] :=
  ⟨rfl, by decide⟩

/-- C7 (amended): flap reporting is counter-based, not log-pattern-based: an
interface appears in `link_flaps` exactly when its structured
`linkStatusChanges` counter strictly exceeds the hard-coded threshold 10 (the
reported line carrying that counter value), and the syslog parser returns the
matching log lines verbatim, without per-entity tallying. -/
theorem c7_theorem :
    (∀ (l : List (String × Json)) (line : String),
      (line ∈ (parse_interface_health
          (some (Json.obj [("interfaceErrorCounters", Json.obj l)])) none).link_flaps
        ↔ ∃ p, p ∈ l ∧ 10 < getIntD p.2 "linkStatusChanges" 0 ∧
            line = p.1 ++ ": " ++ toString (getIntD p.2 "linkStatusChanges" 0) ++ " flaps"))
    ∧ (∀ s, s ≠ "" →
        (parse_system_errors none none (some s) none).syslog_criticals =
          pySplitlines (pyStrip s)) := by
  constructor
  · intro l line
    simp only [parse_interface_health, countersOf, Json.get?, lookupField,
      if_pos rfl]
    rw [List.mem_filterMap]
    constructor
    · rintro ⟨p, hp, hline⟩
      by_cases hc : 10 < getIntD p.2 "linkStatusChanges" 0
      · refine ⟨p, hp, hc, ?_⟩
        unfold flap_line at hline
        rw [if_pos hc] at hline
        exact (Option.some.injEq _ _ ▸ hline).symm
      · exfalso
        unfold flap_line at hline
        rw [if_neg hc] at hline
        cases hline
    · rintro ⟨p, hp, hgt, hline⟩
      refine ⟨p, hp, ?_⟩
      unfold flap_line
      rw [if_pos hgt, hline]
  · intro s hs
    simp only [parse_system_errors, syslog_lines]
    rw [if_pos hs]

/-- C7 witness: a counter of 12 is reported with its counter value; a
two-line syslog output is passed through verbatim. -/
theorem c7_witness :
    ("Ethernet3: 12 flaps" ∈ (parse_interface_health
        (some (Json.obj [("interfaceErrorCounters", Json.obj
          [("Ethernet3", Json.obj [("linkStatusChanges", Json.num 12)])])])) none).link_flaps)
    ∧ "line-a\nline-b" ≠ ""
    ∧ (parse_system_errors none none (some "line-a\nline-b") none).syslog_criticals =
        pySplitlines (pyStrip "line-a\nline-b") :=
  ⟨(c7_theorem.1 _ _).mpr
      ⟨("Ethernet3", Json.obj [("linkStatusChanges", Json.num 12)]),
        List.mem_singleton.mpr rfl, by decide, by decide⟩,
   by decide, c7_theorem.2 _ (by decide)⟩

/- ############################################################
   C3: the BGP four-way state machine
   ############################################################ -/

/-- Joining a one-element list inserts no separator. -/
theorem intercalate_singleton (s a : String) : String.intercalate s [a] = a := rfl

/-- Peers whose state is `'Established'` contribute no `peers_down` line. -/
theorem peer_down_all_est (pl : List (String × Json))
    (h : ∀ pd ∈ pl, Json.get? pd.2 "peerState" = some (Json.str "Established")) :
    pl.filterMap (fun pd => peer_down_line pd.1 pd.2) = [] := by
  induction pl with
  | nil => rfl
  | cons pd t ih =>
    have hh := h pd (List.mem_cons_self pd t)
    have hline : peer_down_line pd.1 pd.2 = none := by
      simp [peer_down_line, hh]
    simp only [List.filterMap_cons, hline]
    exact ih fun q hq => h q (List.mem_cons_of_mem pd hq)

/-- C3: the BGP parser's four-way state machine: (1) no truthy default-VRF
entry yields the "not configured" message; (2) a default VRF whose `reason`
string contains "Missing Router ID" yields the disabled/`FAIL` (Critical)
message regardless of its peers; (3) a default VRF with a router ID, no
missing-router-ID reason and falsy/absent peers yields the
enabled-but-unconfigured `WARNING` message; (4) N peers all `Established`
yield the `OKGREEN` (Ok) summary with established count N of N; (5) with
exactly one peer in state `Active` among otherwise-`Established` peers, that
peer's line is colored `WARNING` while the overall summary is `FAIL`
(Critical) with established count N-1 of N. -/
theorem c3_theorem :
    (∀ (bf : List (String × Json)) (vj : Json),
      lookupField bf "vrfs" = some vj →
      pyTruthyOpt (Json.get? vj "default") = false →
      bgp_status (some (Json.obj bf)) = "BGP not configured or no summary available.")
    ∧ (∀ (bf : List (String × Json)) (vj vd : Json) (r : String),
      lookupField bf "vrfs" = some vj →
      Json.get? vj "default" = some vd →
      pyTruthy vd = true →
      Json.get? vd "reason" = some (Json.str r) →
      strContains r "Missing Router ID" = true →
      bgp_status (some (Json.obj bf)) =
        Colors.FAIL ++ "BGP is disabled (Missing Router ID)" ++ Colors.RESET)
    ∧ (∀ (bf : List (String × Json)) (vj vd : Json) (rid : String),
      lookupField bf "vrfs" = some vj →
      Json.get? vj "default" = some vd →
      pyTruthy vd = true →
      reasonHasMissing vd = false →
      Json.get? vd "routerId" = some (Json.str rid) →
      pyTruthyOpt (Json.get? vd "peers") = false →
      bgp_status (some (Json.obj bf)) =
        Colors.WARNING ++ "BGP is enabled (Router ID: " ++ rid ++
          ") but has no configured neighbors." ++ Colors.RESET)
    ∧ (∀ (bf : List (String × Json)) (vj vd : Json) (pl : List (String × Json)),
      lookupField bf "vrfs" = some vj →
      Json.get? vj "default" = some vd →
      pyTruthy vd = true →
      reasonHasMissing vd = false →
      Json.get? vd "peers" = some (Json.obj pl) →
      pl ≠ [] →
      (∀ pd ∈ pl, Json.get? pd.2 "peerState" = some (Json.str "Established")) →
      bgp_status (some (Json.obj bf)) =
        Colors.OKGREEN ++ toString pl.length ++ "/" ++ toString pl.length ++
          " peers established." ++ Colors.RESET)
    ∧ (∀ (bf : List (String × Json)) (vj vd : Json)
        (l1 l2 : List (String × Json)) (p : String) (dA : Json),
      lookupField bf "vrfs" = some vj →
      Json.get? vj "default" = some vd →
      pyTruthy vd = true →
      reasonHasMissing vd = false →
      Json.get? vd "peers" = some (Json.obj (l1 ++ (p, dA) :: l2)) →
      (∀ pd ∈ l1, Json.get? pd.2 "peerState" = some (Json.str "Established")) →
      (∀ pd ∈ l2, Json.get? pd.2 "peerState" = some (Json.str "Established")) →
      Json.get? dA "peerState" = some (Json.str "Active") →
      bgp_status (some (Json.obj bf)) =
        Colors.FAIL ++ toString ((l1 ++ (p, dA) :: l2).length - 1) ++ "/" ++
          toString (l1 ++ (p, dA) :: l2).length ++ " peers established." ++
          Colors.RESET ++ "\n  " ++
          ("Peer " ++ p ++ " is in state " ++ Colors.WARNING ++ "Active" ++
            Colors.RESET)) := by
  refine ⟨?_, ?_, ?_, ?_, ?_⟩
  · intro bf vj hv hd
    cases hget : Json.get? vj "default" with
    | none => simp [bgp_status, hv, hget]
    | some vd =>
      rw [hget] at hd
      simp only [pyTruthyOpt] at hd
      simp [bgp_status, hv, hget, hd]
  · intro bf vj vd r hv hd ht hr hmr
    have hmiss : reasonHasMissing vd = true := by
      simp [reasonHasMissing, hr, hmr]
    simp [bgp_status, hv, hd, ht, bgp_vrf_status, hmiss]
  · intro bf vj vd rid hv hd ht hnm hrid hp
    simp [bgp_status, hv, hd, ht, bgp_vrf_status, hnm, hp, Json.getD, hrid, pyToStr]
  · intro bf vj vd pl hv hd ht hnm hp hne hall
    have htr2 : pyTruthyOpt (some (Json.obj pl)) = true := by
      simp [pyTruthyOpt, pyTruthy, hne]
    have hdowns := peer_down_all_est pl hall
    simp [bgp_status, hv, hd, ht, bgp_vrf_status, hnm, Json.getD, hp,
      htr2, jsonFields, bgp_peers_status, hdowns]
  · intro bf vj vd l1 l2 p dA hv hd ht hnm hp hall1 hall2 hA
    have htr2 : pyTruthyOpt (some (Json.obj (l1 ++ (p, dA) :: l2))) = true := by
      simp [pyTruthyOpt, pyTruthy]
    have hline : peer_down_line p dA = some ("Peer " ++ p ++ " is in state " ++
        Colors.WARNING ++ "Active" ++ Colors.RESET) := by
      simp [peer_down_line, hA]
    have hdowns : (l1 ++ (p, dA) :: l2).filterMap
        (fun pd => peer_down_line pd.1 pd.2) =
        ["Peer " ++ p ++ " is in state " ++ Colors.WARNING ++ "Active" ++
          Colors.RESET] := by
      rw [List.filterMap_append, peer_down_all_est l1 hall1]
      simp only [List.filterMap_cons, hline, peer_down_all_est l2 hall2]
      rfl
    have hlen : (l1 ++ (p, dA) :: l2).length - 1 ≠ (l1 ++ (p, dA) :: l2).length := by
      simp
    simp [bgp_status, hv, hd, ht, bgp_vrf_status, hnm, Json.getD, hp,
      htr2, jsonFields, bgp_peers_status, hdowns, hlen, intercalate_singleton]

/-- C3 witness: the five branches of the state machine at concrete inputs
(no default VRF; missing router ID with an established peer; router ID and
no peers; two established peers; one established plus one `Active` peer). -/
theorem c3_witness :
    bgp_status (some (Json.obj [("vrfs", Json.obj [])])) =
      "BGP not configured or no summary available."
    ∧ bgp_status (some (Json.obj [("vrfs", Json.obj [("default", Json.obj
        [("reason", Json.str "No routing process, Missing Router ID"),
         ("peers", Json.obj [("10.0.0.1", Json.obj [("peerState", Json.str "Established")])])])])])) =
      Colors.FAIL ++ "BGP is disabled (Missing Router ID)" ++ Colors.RESET
    ∧ bgp_status (some (Json.obj [("vrfs", Json.obj [("default", Json.obj
        [("routerId", Json.str "1.1.1.1")])])])) =
      Colors.WARNING ++ "BGP is enabled (Router ID: " ++ "1.1.1.1" ++
        ") but has no configured neighbors." ++ Colors.RESET
    ∧ bgp_status (some (Json.obj [("vrfs", Json.obj [("default", Json.obj
        [("routerId", Json.str "1.1.1.1"),
         ("peers", Json.obj
           [("10.0.0.1", Json.obj [("peerState", Json.str "Established")]),
            ("10.0.0.2", Json.obj [("peerState", Json.str "Established")])])])])])) =
      Colors.OKGREEN ++ "2" ++ "/" ++ "2" ++ " peers established." ++ Colors.RESET
    ∧ bgp_status (some (Json.obj [("vrfs", Json.obj [("default", Json.obj
        [("routerId", Json.str "1.1.1.1"),
         ("peers", Json.obj
           [("10.0.0.1", Json.obj [("peerState", Json.str "Established")]),
            ("10.0.0.2", Json.obj [("peerState", Json.str "Active")])])])])])) =
      Colors.FAIL ++ "1" ++ "/" ++ "2" ++ " peers established." ++ Colors.RESET ++
        "\n  " ++ ("Peer " ++ "10.0.0.2" ++ " is in state " ++ Colors.WARNING ++
          "Active" ++ Colors.RESET) := by
  refine ⟨?_, ?_, ?_, ?_, ?_⟩
  · exact c3_theorem.1 [("vrfs", Json.obj [])] (Json.obj []) rfl rfl
  · exact c3_theorem.2.1 _ _ _ "No routing process, Missing Router ID" rfl rfl rfl rfl
      (by decide)
  · exact c3_theorem.2.2.1 _ _ _ "1.1.1.1" rfl rfl rfl rfl rfl rfl
  · have h := c3_theorem.2.2.2.1
      [("vrfs", Json.obj [("default", Json.obj
        [("routerId", Json.str "1.1.1.1"),
         ("peers", Json.obj
           [("10.0.0.1", Json.obj [("peerState", Json.str "Established")]),
            ("10.0.0.2", Json.obj [("peerState", Json.str "Established")])])])])]
      (Json.obj [("default", Json.obj
        [("routerId", Json.str "1.1.1.1"),
         ("peers", Json.obj
           [("10.0.0.1", Json.obj [("peerState", Json.str "Established")]),
            ("10.0.0.2", Json.obj [("peerState", Json.str "Established")])])])])
      (Json.obj
        [("routerId", Json.str "1.1.1.1"),
         ("peers", Json.obj
           [("10.0.0.1", Json.obj [("peerState", Json.str "Established")]),
            ("10.0.0.2", Json.obj [("peerState", Json.str "Established")])])])
      [("10.0.0.1", Json.obj [("peerState", Json.str "Established")]),
       ("10.0.0.2", Json.obj [("peerState", Json.str "Established")])]
      rfl rfl rfl rfl rfl (List.cons_ne_nil _ _)
      (by intro pd hpd
          simp at hpd
          rcases hpd with h | h <;> subst h <;> rfl)
    rw [h]
    decide
  · have h := c3_theorem.2.2.2.2
      [("vrfs", Json.obj [("default", Json.obj
        [("routerId", Json.str "1.1.1.1"),
         ("peers", Json.obj
           [("10.0.0.1", Json.obj [("peerState", Json.str "Established")]),
            ("10.0.0.2", Json.obj [("peerState", Json.str "Active")])])])])]
      (Json.obj [("default", Json.obj
        [("routerId", Json.str "1.1.1.1"),
         ("peers", Json.obj
           [("10.0.0.1", Json.obj [("peerState", Json.str "Established")]),
            ("10.0.0.2", Json.obj [("peerState", Json.str "Active")])])])])
      (Json.obj
        [("routerId", Json.str "1.1.1.1"),
         ("peers", Json.obj
           [("10.0.0.1", Json.obj [("peerState", Json.str "Established")]),
            ("10.0.0.2", Json.obj [("peerState", Json.str "Active")])])])
      [("10.0.0.1", Json.obj [("peerState", Json.str "Established")])] []
      "10.0.0.2" (Json.obj [("peerState", Json.str "Active")])
      rfl rfl rfl rfl rfl
      (by intro pd hpd
          simp at hpd
          subst hpd
          rfl)
      (by intro pd hpd
          cases hpd)
      rfl
    rw [h]
    decide

/- ############################################################
   C8: the structured-output modifier is never duplicated
   ############################################################ -/

/-- Appending a space never creates a new occurrence of `"| json"`
(the pattern does not end in a space). -/
theorem pref_app_space : ∀ s : List Char,
    pjson.isPrefixOf (s ++ [' ']) = pjson.isPrefixOf s
  | [] => by decide
  | [a] => by simp [pjson, List.isPrefixOf]
  | [a, b] => by simp [pjson, List.isPrefixOf]
  | [a, b, c] => by simp [pjson, List.isPrefixOf]
  | [a, b, c, d] => by simp [pjson, List.isPrefixOf]
  | [a, b, c, d, e] => by simp [pjson, List.isPrefixOf]
  | a :: b :: c :: d :: e :: f :: t => by simp [pjson, List.isPrefixOf]

/-- Appending `" | json"` never creates an occurrence of `"| json"` that
straddles the junction (no proper suffix of the pattern is a prefix of
`" | json"`). -/
theorem pref_app_mod : ∀ s : List Char,
    pjson.isPrefixOf (s ++ (' ' :: pjson)) = pjson.isPrefixOf s
  | [] => by decide
  | [a] => by simp [pjson, List.isPrefixOf]
  | [a, b] => by simp [pjson, List.isPrefixOf]
  | [a, b, c] => by simp [pjson, List.isPrefixOf]
  | [a, b, c, d] => by simp [pjson, List.isPrefixOf]
  | [a, b, c, d, e] => by simp [pjson, List.isPrefixOf]
  | a :: b :: c :: d :: e :: f :: t => by simp [pjson, List.isPrefixOf]

/-- Occurrence count is unchanged by appending a space. -/
theorem occ_app_space (s : List Char) :
    countOcc pjson (s ++ [' ']) = countOcc pjson s := by
  induction s with
  | nil => decide
  | cons c t ih =>
    have h1 : countOcc pjson ((c :: t) ++ [' ']) =
        (if pjson.isPrefixOf ((c :: t) ++ [' ']) then 1 else 0) +
          countOcc pjson (t ++ [' ']) := rfl
    have h2 : countOcc pjson (c :: t) =
        (if pjson.isPrefixOf (c :: t) then 1 else 0) + countOcc pjson t := rfl
    rw [h1, h2, pref_app_space (c :: t), ih]

/-- Appending `" | json"` adds exactly one occurrence. -/
theorem occ_app_mod (s : List Char) :
    countOcc pjson (s ++ (' ' :: pjson)) = countOcc pjson s + 1 := by
  induction s with
  | nil => decide
  | cons c t ih =>
    have h1 : countOcc pjson ((c :: t) ++ (' ' :: pjson)) =
        (if pjson.isPrefixOf ((c :: t) ++ (' ' :: pjson)) then 1 else 0) +
          countOcc pjson (t ++ (' ' :: pjson)) := rfl
    have h2 : countOcc pjson (c :: t) =
        (if pjson.isPrefixOf (c :: t) then 1 else 0) + countOcc pjson t := rfl
    rw [h1, h2, pref_app_mod (c :: t), ih]
    omega

/-- Python's `"| json" in s` holds exactly when the occurrence count is
positive. -/
theorem contains_iff_occ (s : List Char) :
    listContains pjson s = true ↔ 0 < countOcc pjson s := by
  induction s with
  | nil => decide
  | cons c t ih =>
    simp only [listContains, countOcc, Bool.or_eq_true]
    cases hp : pjson.isPrefixOf (c :: t) <;> simp [ih] <;> omega

/-- String-level form: executing without the modifier appends only a space. -/
theorem jsonOcc_no_mod (cmd : String) : jsonOcc (cmd ++ " ") = jsonOcc cmd := by
  show countOcc pjson ((cmd ++ " ").data) = countOcc pjson cmd.data
  have hd : (cmd ++ " ").data = cmd.data ++ [' '] := rfl
  rw [hd, occ_app_space]

/-- String-level form: appending the modifier adds exactly one occurrence. -/
theorem jsonOcc_with_mod (cmd : String) :
    jsonOcc (cmd ++ " " ++ "| json") = jsonOcc cmd + 1 := by
  show countOcc pjson ((cmd ++ " " ++ "| json").data) = countOcc pjson cmd.data + 1
  have hd : (cmd ++ " " ++ "| json").data = cmd.data ++ (' ' :: pjson) := by
    show (cmd.data ++ [' ']) ++ pjson = cmd.data ++ (' ' :: pjson)
    simp
  rw [hd, occ_app_mod]

/-- C8 (amended): the executor appends the modifier only when a structured
result is requested and never when the command text already contains it (no
stripping occurs), so the executed string of any command text containing the
modifier at most once contains it at most once. -/
theorem c8_theorem (cmd : String) (u : Bool) :
    (u = false → jsonOcc (full_command cmd u) = jsonOcc cmd)
    ∧ (strContains cmd "| json" = true → jsonOcc (full_command cmd u) = jsonOcc cmd)
    ∧ (jsonOcc cmd ≤ 1 → jsonOcc (full_command cmd u) ≤ 1) := by
  have hfull : jsonOcc (full_command cmd u) =
      jsonOcc cmd + (if strContains cmd "| json" = false ∧ u = true then 1 else 0) := by
    unfold full_command
    cases hc : strContains cmd "| json" <;> cases u <;>
      simp [hc, jsonOcc_no_mod, jsonOcc_with_mod]
  refine ⟨?_, ?_, ?_⟩
  · intro hu
    rw [hfull, hu]
    simp
  · intro hc
    rw [hfull, hc]
    simp
  · intro hle
    rw [hfull]
    by_cases hc : strContains cmd "| json" = false ∧ u = true
    · rw [if_pos hc]
      have hz : countOcc pjson cmd.data = 0 := by
        by_contra hnz
        have : 0 < countOcc pjson cmd.data := Nat.pos_of_ne_zero hnz
        have hcont : strContains cmd "| json" = true :=
          (contains_iff_occ cmd.data).mpr this
        rw [hc.1] at hcont
        cases hcont
      show jsonOcc cmd + 1 ≤ 1
      unfold jsonOcc
      omega
    · rw [if_neg hc]
      simpa using hle

/-- C8 counterexample: the executor does not strip modifiers already present;
a command text that already contains `"| json"` twice is executed with two
occurrences, so "the executed command string contains the modifier at most
once" fails for that text. -/
theorem c8_counterexample :
    jsonOcc (full_command "show version | json | json" true) = 2
    ∧ ¬ jsonOcc (full_command "show version | json | json" true) ≤ 1 :=
  ⟨by decide, by decide⟩

/-- C8 witness: a text already containing the modifier is executed without a
second one; a catalog text without the modifier is executed with at most one
occurrence; a free-text request appends nothing. -/
theorem c8_witness :
    strContains "show ip bgp summary | json" "| json" = true
    ∧ jsonOcc (full_command "show ip bgp summary | json" true) =
        jsonOcc "show ip bgp summary | json"
    ∧ jsonOcc "show version" ≤ 1
    ∧ jsonOcc (full_command "show version" true) ≤ 1
    ∧ jsonOcc (full_command "bash df -h" false) = jsonOcc "bash df -h" :=
  ⟨by decide,
   (c8_theorem _ true).2.1 (by decide),
   by decide,
   (c8_theorem _ true).2.2 (by decide),
   (c8_theorem _ false).1 rfl⟩
